import Mathlib

/-
Shallow embedding of the result-handoff store of the repository
(src/src/lib.rs, the body of the build_perform macro), together with the
RequestGate state machine described by the specification.

Modelling decisions, stated once here:

- The store generated by build_perform is
  HashMap<Uuid, Result<V, PerformError>> guarded by a tokio Mutex.  We
  model the map pointwise as a function from identifiers to optional
  entries; insert and remove are pointwise updates, which is exactly the
  observable HashMap behaviour used by the code (get, insert, remove_entry).
- Uuid::new_v4 produces fresh random identifiers; the specification treats
  identifier generation as collision-free by construction, so we model the
  generator as an injective fresh-name supply: a counter carried in the
  global state that activate reads and increments.
- The lock: lock_and_do_mut awaits the mutex, so the blocking operations
  (activate, perform, take, clone) are modelled as acting directly on the
  map once the lock is held.  try_lock_and_do_mut either fails with Locked
  when another context holds the lock, or runs the closure; we model the
  contention status as an explicit boolean argument.
- Asynchronous operations (the futures passed to perform): a future is
  modelled by the value it produces, since perform only awaits it and
  stores the output.
- PerformError as declared at the top of lib.rs has only the variants
  NotInitialized and Locked, but the macro body also uses
  PerformError::Empty (the not-yet-ready placeholder inserted by activate
  and returned by take on a pending entry).  We embed the enum the macro
  body requires, with all three variants.
-/

namespace PerformWasm

/-- Session identifiers: Uuid values, modelled as natural numbers supplied
by an injective fresh-name generator. -/
abbrev Uuid := Nat

/-- The error enum used by the macro body of build_perform: NotInitialized
(no entry under the identifier), Locked (mutex contention), Empty (entry
present but no value written yet). -/
inductive PerformError where
  | NotInitialized
  | Locked
  | Empty
deriving DecidableEq, Repr

/-- The Rust Result<V, PerformError> type stored in (and returned by) the
store operations. -/
inductive Result (V : Type) where
  | ok (v : V)
  | error (e : PerformError)
deriving DecidableEq, Repr

/-- The PerformState enum declared in lib.rs.  The macro body does not use
it: the store holds Result<V, PerformError> directly, with ok v standing
for a completed Done value and error Empty for the not-ready placeholder. -/
inductive PerformState (T : Type) where
  | Empty
  | Done (t : T)
deriving DecidableEq, Repr

/-- The mutex-guarded HashMap<Uuid, Result<V, PerformError>>, modelled
pointwise. -/
def Store (V : Type) := Uuid → Option (Result V)

/-- HashMap::insert: map the key to the new entry, leave every other key
unchanged. -/
def Store.insert {V : Type} (m : Store V) (id : Uuid) (e : Result V) : Store V :=
  fun k => if k = id then some e else m k

/-- HashMap::remove_entry: remove the entry under the key; other keys
unchanged. -/
def Store.remove {V : Type} (m : Store V) (id : Uuid) : Store V :=
  fun k => if k = id then none else m k

/-- The session handle: struct Session carries only the identifier. -/
structure Session where
  id : Uuid
deriving DecidableEq, Repr

/-- The lazily initialized global state: the store plus the fresh-identifier
supply standing in for Uuid::new_v4. -/
structure GlobalState (V : Type) where
  store : Store V
  nextId : Uuid

/-- Session::activate: draw a fresh identifier, insert the Empty
placeholder Err(PerformError::Empty) under it, return the session handle.
activate_with_spawn_local performs the same insert on a background task;
once that insert has run the resulting store is the same. -/
def Session.activate {V : Type} (g : GlobalState V) : Session × GlobalState V :=
  let id := g.nextId
  (⟨id⟩, ⟨g.store.insert id (.error .Empty), g.nextId + 1⟩)

/-- Session::perform: await the future to obtain its output value, then
insert Ok(value) under the session identifier.  The insert is
unconditional: whatever was (or was not) under the identifier is replaced.
perform_with_spawn_local runs the same await-then-insert on a detached
task; once it has run the resulting store is the same. -/
def Session.perform {V : Type} (self : Session) (m : Store V) (value : V) : Store V :=
  m.insert self.id (.ok value)

/-- The closure passed by take and try_take to the locking combinators:
remove_entry the identifier; if an entry was there, return it with any
error mapped to Empty, otherwise return Err(NotInitialized).  Returns the
call result together with the store after the call. -/
def take_body {V : Type} (id : Uuid) (m : Store V) : Result V × Store V :=
  match m id with
  | some result =>
      ((match result with
        | .ok v => .ok v
        | .error _ => .error .Empty), m.remove id)
  | none => (.error .NotInitialized, m)

/-- Session::take: lock_and_do_mut awaits the lock, then runs the take
closure. -/
def Session.take {V : Type} (self : Session) (m : Store V) : Result V × Store V :=
  take_body self.id m

/-- try_lock_and_do_mut: if another context holds the lock, return
Err(Locked) with the store untouched; otherwise run the closure. -/
def try_lock_and_do_mut {V : Type} (locked : Bool) (m : Store V)
    (f : Store V → Result V × Store V) : Result V × Store V :=
  if locked then (.error .Locked, m) else f m

/-- Session::try_take: the same closure as take, run through
try_lock_and_do_mut instead of the blocking lock. -/
def Session.try_take {V : Type} (self : Session) (locked : Bool) (m : Store V) :
    Result V × Store V :=
  try_lock_and_do_mut locked m (take_body self.id)

/-- Session::clone: a read-only lookup under the blocking lock.  The
closure receives the map immutably, so the store is unchanged; only the
result is returned.  A present Ok entry is cloned, a present Err entry
yields Err(Empty), an absent entry yields Err(NotInitialized). -/
def Session.clone {V : Type} (self : Session) (m : Store V) : Result V :=
  match m self.id with
  | some (.ok v) => .ok v
  | some (.error _) => .error .Empty
  | none => .error .NotInitialized

/-- Read-side operations a consumer can issue against its own session:
used to express properties over every sequence of subsequent calls. -/
inductive ReadOp where
  | take
  | tryTake
deriving DecidableEq, Repr

/-- Run a sequence of take and try_take calls (the latter with the lock
free) against one session, threading the store, and collect the results. -/
def run_reads {V : Type} (m : Store V) (s : Session) : List ReadOp → List (Result V)
  | [] => []
  | op :: rest =>
      match op with
      | .take =>
          let r := s.take m
          r.1 :: run_reads r.2 s rest
      | .tryTake =>
          let r := s.try_take false m
          r.1 :: run_reads r.2 s rest

/-- The RequestGate progress flag: Idle (nothing outstanding) or InFlight
(one operation launched, result not yet taken). -/
inductive GateState where
  | Idle
  | InFlight
deriving DecidableEq, Repr

/-- Modelled from the spec: the RequestGate (named Performer and Taker in
the source drafts) is not present under src/; only its caller
egui_test/src/main.rs is.  Per section 4.3 of the specification, request
from Idle calls the detached run form exactly once and moves to InFlight,
while request from InFlight is a no-op.  The boolean records whether this
call launched the operation. -/
def request : GateState → GateState × Bool
  | .Idle => (.InFlight, true)
  | .InFlight => (.InFlight, false)

/-- Modelled from the spec: issue n request calls back to back and count
how many of them launched the operation. -/
def run_requests : GateState → Nat → GateState × Nat
  | g, 0 => (g, 0)
  | g, n + 1 =>
      let step := request g
      let rest := run_requests step.1 n
      (rest.1, (if step.2 then 1 else 0) + rest.2)

section Lemmas

variable {V : Type}

theorem Store.insert_self (m : Store V) (id : Uuid) (e : Result V) :
    m.insert id e id = some e := by
  simp [Store.insert]

theorem Store.insert_other (m : Store V) (id k : Uuid) (e : Result V) (h : k ≠ id) :
    m.insert id e k = m k := by
  simp [Store.insert, h]

theorem Store.remove_self (m : Store V) (id : Uuid) :
    m.remove id id = none := by
  simp [Store.remove]

theorem Store.remove_other (m : Store V) (id k : Uuid) (h : k ≠ id) :
    m.remove id k = m k := by
  simp [Store.remove, h]

/-- On an absent entry, take returns NotInitialized and leaves the store
unchanged. -/
theorem take_body_absent (m : Store V) (id : Uuid) (h : m id = none) :
    take_body id m = (.error .NotInitialized, m) := by
  simp [take_body, h]

/-- take and try_take never create an entry: once the entry under the
session identifier is absent, it stays absent after any read. -/
theorem take_body_preserves_absent (m : Store V) (id : Uuid) (h : m id = none) :
    (take_body id m).2 id = none := by
  simp [take_body, h]

/-- Once the entry under the session is absent, every subsequent take or
try_take (lock free) returns NotInitialized. -/
theorem run_reads_not_initialized (m : Store V) (s : Session) (h : m s.id = none) :
    ∀ ops : List ReadOp, ∀ r ∈ run_reads m s ops, r = .error .NotInitialized := by
  intro ops
  induction ops generalizing m with
  | nil => intro r hr; simp [run_reads] at hr
  | cons op rest ih =>
      intro r hr
      cases op with
      | take =>
          simp only [run_reads, Session.take, take_body_absent m s.id h] at hr
          rcases List.mem_cons.mp hr with h1 | h2
          · exact h1
          · exact ih m h r h2
      | tryTake =>
          simp only [run_reads, Session.try_take, try_lock_and_do_mut, if_neg,
            Bool.false_eq_true, not_false_iff, take_body_absent m s.id h] at hr
          rcases List.mem_cons.mp hr with h1 | h2
          · exact h1
          · exact ih m h r h2

end Lemmas

section Claims

variable {V : Type}

/-- Claim C3: activate returns a fresh session identifier, inserts the
Empty placeholder entry into the store under that identifier, and returns
the handle; two successive activations produce distinct identifiers, the
generator being a collision-free fresh-name supply by construction. -/
theorem c3_activate_fresh_insert (g : GlobalState V) :
    (Session.activate g).1.id = g.nextId ∧
    (Session.activate g).2.store (Session.activate g).1.id = some (.error .Empty) ∧
    (Session.activate (Session.activate g).2).1.id ≠ (Session.activate g).1.id := by
  refine ⟨rfl, ?_, ?_⟩
  · simp [Session.activate, Store.insert_self]
  · simp [Session.activate]

/-- Claim C4: right after activate and before any completion write, a
try_take on the fresh session (lock free) returns the Empty not-ready
outcome: not a Done value, not NotInitialized, and not the Locked
failure. -/
theorem c4_not_ready_before_completion (g : GlobalState V) :
    ((Session.activate g).1.try_take false (Session.activate g).2.store).1 = .error .Empty ∧
    (∀ v : V, ((Session.activate g).1.try_take false (Session.activate g).2.store).1 ≠ .ok v) ∧
    ((Session.activate g).1.try_take false (Session.activate g).2.store).1 ≠
      .error .NotInitialized ∧
    ((Session.activate g).1.try_take false (Session.activate g).2.store).1 ≠
      .error .Locked := by
  have h : ((Session.activate g).1.try_take false (Session.activate g).2.store).1 =
      .error .Empty := by
    simp [Session.activate, Session.try_take, try_lock_and_do_mut, take_body,
      Store.insert_self]
  exact ⟨h, fun v hv => by rw [h] at hv; exact Result.noConfusion hv,
    by rw [h]; intro hv; injection hv with h2; exact PerformError.noConfusion h2,
    by rw [h]; intro hv; injection hv with h2; exact PerformError.noConfusion h2⟩

/-- Claim C5: the inline run form awaits the operation and writes its
output as the Done value before returning; a subsequent take on that
identifier yields exactly that value. -/
theorem c5_inline_run_then_take (s : Session) (m : Store V) (output : V) :
    (s.perform m output) s.id = some (.ok output) ∧
    (s.take (s.perform m output)).1 = .ok output := by
  constructor
  · simp [Session.perform, Store.insert_self]
  · simp [Session.take, take_body, Session.perform, Store.insert_self]

/-- Claim C6: try_take runs the very same closure as take; under
contention it returns Locked at once with the store untouched, and with
the lock free it returns exactly what take would. -/
theorem c6_try_take_vs_take (s : Session) (m : Store V) :
    s.try_take true m = (.error .Locked, m) ∧
    s.try_take false m = s.take m := by
  exact ⟨rfl, rfl⟩

/-- Claim C10: the completion write is an unconditional insert: perform
never inspects the current entry, so whatever the identifier mapped to
before (absent, Empty placeholder, or an existing Done value), afterwards
it maps to the Done value just produced; perform has no error outcome. -/
theorem c10_perform_unconditional_insert (s : Session) (m : Store V) (v : V) :
    (s.perform m v) s.id = some (.ok v) := by
  simp [Session.perform, Store.insert_self]

/-- Claim C1: destructive single delivery.  If a take on a session
succeeds with a value, the store entry under that identifier is removed,
and every result produced by any subsequent sequence of take and try_take
calls on the same session is NotInitialized; in particular no later call
can return the value again. -/
theorem c1_single_delivery (s : Session) (m : Store V) (v : V)
    (h : (s.take m).1 = .ok v) (ops : List ReadOp) (r : Result V)
    (hr : r ∈ run_reads (s.take m).2 s ops) :
    (s.take m).2 s.id = none ∧ r = .error .NotInitialized := by
  have hid : (s.take m).2 s.id = none := by
    cases hm : m s.id with
    | none => simp [Session.take, take_body, hm] at h
    | some r0 =>
        cases r0 with
        | ok w => simp [Session.take, take_body, hm, Store.remove_self]
        | error e => simp [Session.take, take_body, hm] at h
  exact ⟨hid, run_reads_not_initialized _ s hid ops r hr⟩

/-- Witness for claim C1 at a concrete store holding the value 42 under
identifier 0, followed by one take and one try_take. -/
theorem c1_single_delivery_witness :
    ((Session.take ⟨0⟩ (Store.insert (fun _ => none) 0 (Result.ok (42 : Nat)))).1 =
        Result.ok 42 ∧
      Result.error PerformError.NotInitialized ∈
        run_reads (Session.take ⟨0⟩ (Store.insert (fun _ => none) 0
          (Result.ok (42 : Nat)))).2 ⟨0⟩ [ReadOp.take, ReadOp.tryTake]) ∧
    ((Session.take ⟨0⟩ (Store.insert (fun _ => none) 0 (Result.ok (42 : Nat)))).2
        (Session.mk 0).id = none ∧
      (Result.error PerformError.NotInitialized : Result Nat) =
        Result.error PerformError.NotInitialized) :=
  ⟨⟨by decide, by decide⟩,
    c1_single_delivery ⟨0⟩ (Store.insert (fun _ => none) 0 (Result.ok (42 : Nat))) 42
      (by decide) [ReadOp.take, ReadOp.tryTake] (Result.error PerformError.NotInitialized)
      (by decide)⟩

/-- Counterexample to claim C2 as stated: a store whose entry under
identifier 0 is already the Done value 1 is overwritten by a perform
writing 2 — the store does overwrite a Done entry. -/
theorem c2_counterexample :
    (Store.insert (fun _ => none) 0 (Result.ok (1 : Nat))) 0 = some (Result.ok 1) ∧
    (Session.perform ⟨0⟩ (Store.insert (fun _ => none) 0 (Result.ok (1 : Nat))) 2) 0 =
      some (Result.ok 2) ∧
    (Session.perform ⟨0⟩ (Store.insert (fun _ => none) 0 (Result.ok (1 : Nat))) 2) 0 ≠
      (Store.insert (fun _ => none) 0 (Result.ok (1 : Nat))) 0 := by
  decide

/-- Claim C2 as amended: the store itself never checks before writing, so
write-once is a caller precondition rather than a store-enforced
invariant; when perform is invoked while the identifier still maps to the
Empty placeholder left by activation — the discipline the gate maintains —
it performs the single completion write from Empty to the Done value. -/
theorem c2_amended_write_once_under_precondition (s : Session) (m : Store V) (v : V)
    (h : m s.id = some (.error .Empty)) :
    (s.perform m v) s.id = some (.ok v) ∧ m s.id ≠ some (.ok v) := by
  constructor
  · simp [Session.perform, Store.insert_self]
  · rw [h]; intro hv; injection hv with h2; exact Result.noConfusion h2

/-- Witness for the amended claim C2 at a concrete store holding the
Empty placeholder under identifier 0. -/
theorem c2_amended_witness :
    (Store.insert (fun _ => none) 0 (Result.error PerformError.Empty) :
        Store Nat) 0 = some (Result.error PerformError.Empty) ∧
    ((Session.perform ⟨0⟩ (Store.insert (fun _ => none) 0
        (Result.error PerformError.Empty)) (7 : Nat)) (Session.mk 0).id =
      some (Result.ok 7) ∧
    (Store.insert (fun _ => none) 0 (Result.error PerformError.Empty) :
        Store Nat) (Session.mk 0).id ≠ some (Result.ok 7)) :=
  ⟨by decide,
    c2_amended_write_once_under_precondition ⟨0⟩
      (Store.insert (fun _ => none) 0 (Result.error PerformError.Empty)) 7 (by decide)⟩

/-- Claim C7: frame condition.  Every store operation scoped to one
session leaves the entry under every other identifier unchanged: perform,
take, and try_take (contended or not) do not touch other keys, and clone
reads the map immutably, so it cannot change any entry at all. -/
theorem c7_frame_other_identifiers (s : Session) (m : Store V) (v : V)
    (locked : Bool) (k : Uuid) (h : k ≠ s.id) :
    (s.perform m v) k = m k ∧
    (s.take m).2 k = m k ∧
    (s.try_take locked m).2 k = m k := by
  have htake : (s.take m).2 k = m k := by
    cases hm : m s.id with
    | none => simp [Session.take, take_body, hm]
    | some r0 => simp [Session.take, take_body, hm, Store.remove_other m s.id k h]
  refine ⟨Store.insert_other m s.id k (.ok v) h, htake, ?_⟩
  cases locked with
  | true => rfl
  | false => exact htake

/-- Witness for claim C7: a store holding values under identifiers 0 and
1, with each operation applied to the session of identifier 0 and the
entry under identifier 1 inspected. -/
theorem c7_frame_witness :
    ((1 : Uuid) ≠ (Session.mk 0).id) ∧
    ((Session.perform ⟨0⟩ (Store.insert (Store.insert (fun _ => none) 1
        (Result.ok (9 : Nat))) 0 (Result.ok 5)) 6) 1 =
      (Store.insert (Store.insert (fun _ => none) 1 (Result.ok (9 : Nat))) 0
        (Result.ok 5)) 1 ∧
    (Session.take ⟨0⟩ (Store.insert (Store.insert (fun _ => none) 1
        (Result.ok (9 : Nat))) 0 (Result.ok 5))).2 1 =
      (Store.insert (Store.insert (fun _ => none) 1 (Result.ok (9 : Nat))) 0
        (Result.ok 5)) 1 ∧
    (Session.try_take ⟨0⟩ false (Store.insert (Store.insert (fun _ => none) 1
        (Result.ok (9 : Nat))) 0 (Result.ok 5))).2 1 =
      (Store.insert (Store.insert (fun _ => none) 1 (Result.ok (9 : Nat))) 0
        (Result.ok 5)) 1) :=
  ⟨by decide,
    c7_frame_other_identifiers ⟨0⟩
      (Store.insert (Store.insert (fun _ => none) 1 (Result.ok (9 : Nat))) 0
        (Result.ok 5)) 6 false 1 (by decide)⟩

/-- Claim C8: RequestGate idempotent launch.  Any number of request calls
issued while the gate is InFlight launch nothing and leave it InFlight,
and a run of n + 1 consecutive request calls starting from Idle launches
the operation exactly once — so the gate never has two operations in
flight for the same session. -/
theorem c8_request_launches_once (n : Nat) :
    run_requests GateState.InFlight n = (GateState.InFlight, 0) ∧
    run_requests GateState.Idle (n + 1) = (GateState.InFlight, 1) := by
  have h1 : ∀ k, run_requests GateState.InFlight k = (GateState.InFlight, 0) := by
    intro k
    induction k with
    | zero => rfl
    | succ k ih => simp [run_requests, request, ih]
  refine ⟨h1 n, ?_⟩
  simp [run_requests, request, h1 n]

/-- Claim C9: take is destructive even when no value is ready.  On an
entry still holding the Empty placeholder, take (and try_take with the
lock free) returns the not-ready error yet removes the entry, so an
immediately following take on the same session returns NotInitialized
instead of not-ready. -/
theorem c9_empty_take_removes_entry (s : Session) (m : Store V)
    (h : m s.id = some (.error .Empty)) :
    (s.take m).1 = .error .Empty ∧
    (s.take m).2 s.id = none ∧
    (Session.take s (s.take m).2).1 = .error .NotInitialized ∧
    (s.try_take false m).1 = .error .Empty ∧
    (s.try_take false m).2 s.id = none := by
  have h2 : (s.take m).2 s.id = none := by
    simp [Session.take, take_body, h, Store.remove_self]
  have h3 : (take_body s.id m).2 s.id = none := h2
  refine ⟨by simp [Session.take, take_body, h], h2, ?_, ?_, ?_⟩
  · simp [Session.take, take_body_absent _ _ h3]
  · simp [Session.try_take, try_lock_and_do_mut, take_body, h]
  · simp [Session.try_take, try_lock_and_do_mut, take_body, h, Store.remove_self]

/-- Witness for claim C9 at a concrete store holding the Empty
placeholder under identifier 0. -/
theorem c9_empty_take_witness :
    (Store.insert (fun _ => none) 0 (Result.error PerformError.Empty) :
        Store Nat) (Session.mk 0).id = some (Result.error PerformError.Empty) ∧
    ((Session.take ⟨0⟩ (Store.insert (fun _ => none) 0
        (Result.error PerformError.Empty) : Store Nat)).1 =
      Result.error PerformError.Empty ∧
    (Session.take ⟨0⟩ (Store.insert (fun _ => none) 0
        (Result.error PerformError.Empty) : Store Nat)).2 (Session.mk 0).id = none ∧
    (Session.take ⟨0⟩ (Session.take ⟨0⟩ (Store.insert (fun _ => none) 0
        (Result.error PerformError.Empty) : Store Nat)).2).1 =
      Result.error PerformError.NotInitialized ∧
    (Session.try_take ⟨0⟩ false (Store.insert (fun _ => none) 0
        (Result.error PerformError.Empty) : Store Nat)).1 =
      Result.error PerformError.Empty ∧
    (Session.try_take ⟨0⟩ false (Store.insert (fun _ => none) 0
        (Result.error PerformError.Empty) : Store Nat)).2 (Session.mk 0).id = none) :=
  ⟨by decide,
    c9_empty_take_removes_entry ⟨0⟩
      (Store.insert (fun _ => none) 0 (Result.error PerformError.Empty)) (by decide)⟩

end Claims

end PerformWasm
